import Mathlib

/-!
Verification of the circular slider widget (`slider.js`).

The geometry helpers of the widget (`find_angle`, `polarToCartesian`,
`snap_to_angle`, the value computation inside `move_handle`) are embedded as
functions over `ℝ` (JavaScript numbers are modelled by real numbers; the
places where the JavaScript float pipeline produces `NaN` — division by zero
followed by `Math.acos`, or an `acos` argument outside `[-1, 1]` — are
modelled by an `Option ℝ` result, `none` standing for `NaN`).

Config normalisation (`default_data` merging) is embedded over `ℚ`/`String`
records, strings of the class-name plumbing as lists of Unicode code points,
and the event wiring (`move_handle`, the document-level `mousemove` /
`mouseup` / `touchend` listeners) as an explicit step function on a widget
state holding each slider's `rotating` flag together with the module-level
`sliders` variable that `move_handle` reassigns.
-/

/-- A 2-D point, as the `{x, y}` records used throughout `slider.js`. -/
structure Point where
  x : ℝ
  y : ℝ

/-- `polarToCartesian(cX, cY, radius, degrees)` from `slider.js`:
`radians = (degrees-90)*π/180`, result `(cX + radius*cos radians, cY + radius*sin radians)`. -/
noncomputable def polarToCartesian (cX cY radius degrees : ℝ) : Point :=
  let radians : ℝ := (degrees - 90) * Real.pi / 180
  ⟨cX + radius * Real.cos radians, cY + radius * Real.sin radians⟩

/-- `snap_to_angle(angle, min, max, step)` from `slider.js`: identity when
`step == 0`, otherwise `angle_step * Math.round(angle / angle_step)` with
`angle_step = 360 / ((max - min) / step)`.  `Math.round` (round half towards
positive infinity) is Mathlib's `round`. -/
noncomputable def snap_to_angle (angle min max step : ℝ) : ℝ :=
  if step = 0 then angle
  else
    let nsteps : ℝ := (max - min) / step
    let angle_step : ℝ := 360 / nsteps
    let snap_step : ℤ := round (angle / angle_step)
    angle_step * (snap_step : ℝ)

/-- The value computation of `move_handle` (`slider.js` lines 400–401):
`percent = 1/360 * angle; value = (max_value-min_value)*percent + min_value`,
taking the already snapped angle. -/
noncomputable def value_from_angle (min_value max_value angle : ℝ) : ℝ :=
  let percent : ℝ := 1 / 360 * angle
  (max_value - min_value) * percent + min_value

/-- The full angle-to-value pipeline of `move_handle`: snap the raw mouse
angle with `snap_to_angle`, then apply the value formula. -/
noncomputable def move_value (min_value max_value step mouse_angle : ℝ) : ℝ :=
  value_from_angle min_value max_value (snap_to_angle mouse_angle min_value max_value step)

/-- The angle actually handed to `describeArc` when redrawing the two active
arcs (`slider.js` line 416): `angle==360 ? angle-0.1 : angle`. -/
noncomputable def arc_display_angle (angle : ℝ) : ℝ :=
  if angle = 360 then angle - 0.1 else angle

lemma round_cast_div_self {a : ℝ} (ha : a ≠ 0) (k : ℤ) :
    round (a * (k : ℝ) / a) = k := by
  rw [mul_comm, mul_div_assoc, div_self ha, mul_one, round_intCast]

lemma round_forty_five_div_thirty_six : round ((45 : ℝ) / 36) = 1 := by
  rw [round_eq]
  have h : (45 : ℝ) / 36 + 1 / 2 = 7 / 4 := by norm_num
  rw [h, Int.floor_eq_iff]
  constructor <;> norm_num

lemma snap_45_0_100_10 : snap_to_angle 45 0 100 10 = 36 := by
  unfold snap_to_angle
  rw [if_neg (by norm_num : (10 : ℝ) ≠ 0)]
  have h1 : ((100 : ℝ) - 0) / 10 = 10 := by norm_num
  have h2 : (360 : ℝ) / 10 = 36 := by norm_num
  simp only [h1, h2]
  have h3 : (45 : ℝ) / 36 = 45 / 36 := rfl
  rw [show round ((45 : ℝ) / 36) = 1 from round_forty_five_div_thirty_six]
  norm_num

/-- Claim C9: `polarToCartesian(cx, cy, r, 0)` is the point directly above the
center at distance `r`, namely `(cx, cy - r)` (the `-90°` offset makes `0°`
point up), and `polarToCartesian(cx, cy, r, 360)` coincides with
`polarToCartesian(cx, cy, r, 0)` (exactly, in the real-number model, hence in
particular up to floating tolerance). -/
theorem polarToCartesian_zero_up_and_periodic (cx cy r : ℝ) :
    polarToCartesian cx cy r 0 = ⟨cx, cy - r⟩ ∧
    polarToCartesian cx cy r 360 = polarToCartesian cx cy r 0 := by
  have h0 : ((0 : ℝ) - 90) * Real.pi / 180 = -(Real.pi / 2) := by ring
  have h360 : ((360 : ℝ) - 90) * Real.pi / 180 = Real.pi + Real.pi / 2 := by ring
  constructor
  · unfold polarToCartesian
    simp only [h0, Real.cos_neg, Real.sin_neg, Real.cos_pi_div_two, Real.sin_pi_div_two]
    congr 1 <;> ring
  · unfold polarToCartesian
    simp only [h0, h360, Real.cos_neg, Real.sin_neg, Real.cos_pi_div_two, Real.sin_pi_div_two,
      Real.cos_add, Real.sin_add, Real.cos_pi, Real.sin_pi]
    congr 1 <;> ring

/-- Claim C4: `snap_to_angle` is the identity when `step = 0`, and when
`step ≠ 0` it returns `angleStep * round(angle / angleStep)` with
`angleStep = 360 / ((max - min) / step)`. -/
theorem snap_to_angle_formula (angle min max step : ℝ) :
    snap_to_angle angle min max 0 = angle ∧
    (step ≠ 0 →
      snap_to_angle angle min max step =
        360 / ((max - min) / step) * ((round (angle / (360 / ((max - min) / step))) : ℤ) : ℝ)) := by
  constructor
  · unfold snap_to_angle
    rw [if_pos rfl]
  · intro hstep
    unfold snap_to_angle
    rw [if_neg hstep]

theorem snap_to_angle_formula_witness :
    (10 : ℝ) ≠ 0 ∧
    (snap_to_angle 45 0 100 0 = 45 ∧
      ((10 : ℝ) ≠ 0 →
        snap_to_angle 45 0 100 10 =
          360 / (((100 : ℝ) - 0) / 10) * ((round ((45 : ℝ) / (360 / (((100 : ℝ) - 0) / 10))) : ℤ) : ℝ))) :=
  ⟨by norm_num, snap_to_angle_formula 45 0 100 10⟩

/-- Claim C5 (amendment-free part): when `min < max`, `step ≠ 0` and `step`
divides `max - min` an integral number of times, the output of
`snap_to_angle` is an integer multiple of `angleStep = 360 / ((max - min) / step)`,
and `snap_to_angle` is idempotent for those parameters. -/
theorem snap_to_angle_multiple_and_idempotent (angle min max step : ℝ)
    (hlt : min < max) (hstep : step ≠ 0) (_hdvd : ∃ n : ℤ, max - min = (n : ℝ) * step) :
    (∃ k : ℤ, snap_to_angle angle min max step = (k : ℝ) * (360 / ((max - min) / step))) ∧
    snap_to_angle (snap_to_angle angle min max step) min max step =
      snap_to_angle angle min max step := by
  have hne : max - min ≠ 0 := sub_ne_zero.mpr (ne_of_gt hlt)
  have hnsteps : (max - min) / step ≠ 0 := div_ne_zero hne hstep
  have hangle_step : (360 : ℝ) / ((max - min) / step) ≠ 0 :=
    div_ne_zero (by norm_num) hnsteps
  constructor
  · refine ⟨round (angle / (360 / ((max - min) / step))), ?_⟩
    unfold snap_to_angle
    rw [if_neg hstep]
    ring
  · conv_lhs => rw [snap_to_angle, if_neg hstep]
    conv_rhs => rw [snap_to_angle, if_neg hstep]
    simp only
    rw [snap_to_angle, if_neg hstep]
    simp only
    rw [round_cast_div_self hangle_step]

theorem snap_to_angle_multiple_and_idempotent_witness :
    ((0 : ℝ) < 100 ∧ (10 : ℝ) ≠ 0 ∧ (∃ n : ℤ, (100 : ℝ) - 0 = (n : ℝ) * 10)) ∧
    ((∃ k : ℤ, snap_to_angle 45 0 100 10 = (k : ℝ) * (360 / (((100 : ℝ) - 0) / 10))) ∧
      snap_to_angle (snap_to_angle 45 0 100 10) 0 100 10 = snap_to_angle 45 0 100 10) :=
  ⟨⟨by norm_num, by norm_num, ⟨10, by norm_num⟩⟩,
    snap_to_angle_multiple_and_idempotent 45 0 100 10 (by norm_num) (by norm_num)
      ⟨10, by norm_num⟩⟩

/-- Claim C3, counterexample: with config `{min_value: 0, max_value: 100,
step: 10}` and raw angle `45°`, the snapped angle is neither `40°` nor `50°`
and the computed value is neither `40` nor `50` — the claimed outputs are
impossible. -/
theorem snap_45_not_forty_or_fifty :
    ¬ ((snap_to_angle 45 0 100 10 = 40 ∨ snap_to_angle 45 0 100 10 = 50) ∧
       (move_value 0 100 10 45 = 40 ∨ move_value 0 100 10 45 = 50)) := by
  intro h
  rcases h.1 with h1 | h1 <;> rw [snap_45_0_100_10] at h1 <;> norm_num at h1

/-- Claim C3, amended: with config `{min_value: 0, max_value: 100, step: 10}`,
a raw pointer angle of `45°` snaps to `36°` (the nearest multiple of
`360/10 = 36°`) and yields the computed value `10`. -/
theorem snap_45_is_36_value_10 :
    snap_to_angle 45 0 100 10 = 36 ∧ move_value 0 100 10 45 = 10 := by
  refine ⟨snap_45_0_100_10, ?_⟩
  unfold move_value value_from_angle
  rw [snap_45_0_100_10]
  norm_num

/-- Claim C6: for every slider with `min_value < max_value`, the value the
update algorithm computes from a snapped angle is
`min_value + (angle/360)·(max_value - min_value)`; at angle `0` it is
`min_value`, at angle `360` it is `max_value`, while the `359.9` clamp is
applied only to the drawn arc (`arc_display_angle`), not to the value. -/
theorem value_from_angle_formula (min_value max_value angle : ℝ)
    (hlt : min_value < max_value) :
    value_from_angle min_value max_value angle =
      min_value + angle / 360 * (max_value - min_value) ∧
    value_from_angle min_value max_value 0 = min_value ∧
    value_from_angle min_value max_value 360 = max_value ∧
    arc_display_angle 360 = 359.9 ∧
    value_from_angle min_value max_value (arc_display_angle 360) ≠ max_value := by
  refine ⟨?_, ?_, ?_, ?_, ?_⟩
  · unfold value_from_angle; ring
  · unfold value_from_angle; ring
  · unfold value_from_angle; ring
  · unfold arc_display_angle; norm_num
  · unfold arc_display_angle value_from_angle
    rw [if_pos rfl]
    intro h
    have h2 : (max_value - min_value) * (1 / 360 * (360 - 0.1)) + min_value - max_value = 0 := by
      rw [h]; ring
    have h3 : (max_value - min_value) * (1 / 3600) = 0 := by linarith [h2]
    have h4 : max_value - min_value = 0 := by
      by_contra hne
      exact hne (by linarith [mul_ne_zero hne (by norm_num : (1 : ℝ) / 3600 ≠ 0),
        h3, sub_eq_zero.mpr (rfl : max_value - min_value = max_value - min_value)])
    linarith

theorem value_from_angle_formula_witness :
    (0 : ℝ) < 100 ∧
    (value_from_angle 0 100 90 = 0 + 90 / 360 * (100 - 0) ∧
      value_from_angle 0 100 0 = 0 ∧
      value_from_angle 0 100 360 = 100 ∧
      arc_display_angle 360 = 359.9 ∧
      value_from_angle 0 100 (arc_display_angle 360) ≠ 100) :=
  ⟨by norm_num, value_from_angle_formula 0 100 90 (by norm_num)⟩

/-- The length of the segment from `p` to `q`, as computed inside
`find_angle`: `Math.sqrt(Math.pow(q.x-p.x,2) + Math.pow(q.y-p.y,2))`. -/
noncomputable def seg_len (p q : Point) : ℝ :=
  Real.sqrt ((q.x - p.x) ^ 2 + (q.y - p.y) ^ 2)

/-- The argument handed to `Math.acos` in `find_angle`:
`(bc*bc + ab*ab - ac*ac) / (2*bc*ab)` with `ab`, `bc`, `ac` the three side
lengths computed there (`bc` is `sqrt((b.x-c.x)² + (b.y-c.y)²)`, i.e.
`seg_len c b`). -/
noncomputable def acos_arg (a b c : Point) : ℝ :=
  (seg_len c b * seg_len c b + seg_len a b * seg_len a b - seg_len a c * seg_len a c) /
    (2 * seg_len c b * seg_len a b)

/-- The `degrees` local of `find_angle`: the law-of-cosines angle at vertex
`b` in degrees, `Math.acos(...) * 180 / Math.PI`. -/
noncomputable def law_of_cosines_deg (a b c : Point) : ℝ :=
  Real.arccos (acos_arg a b c) * 180 / Real.pi

/-- `find_angle(a, b, c)` from `slider.js`.  The JavaScript float pipeline
produces `NaN` exactly when the `acos` divisor `2*bc*ab` is zero (division
by zero, then `Math.acos` of `NaN`/`±Infinity`) or when the `acos` argument
falls outside `[-1, 1]`; those cases are modelled by `none`.  Otherwise the
result is `a.x < c.x ? degrees : 180 - degrees + 180`. -/
noncomputable def find_angle (a b c : Point) : Option ℝ :=
  if 2 * seg_len c b * seg_len a b = 0 then none
  else if acos_arg a b c < -1 ∨ 1 < acos_arg a b c then none
  else some (if a.x < c.x then law_of_cosines_deg a b c
             else 180 - law_of_cosines_deg a b c + 180)

/-- Three points are collinear precisely when the cross product of the two
edge vectors out of `a` vanishes. -/
def Collinear3 (a b c : Point) : Prop :=
  (b.x - a.x) * (c.y - a.y) - (b.y - a.y) * (c.x - a.x) = 0

lemma Point.ne_iff {p q : Point} : p ≠ q ↔ p.x ≠ q.x ∨ p.y ≠ q.y := by
  constructor
  · intro h
    by_contra hc
    push_neg at hc
    exact h (by cases p; cases q; simp_all)
  · intro h hc
    subst hc
    rcases h with h | h <;> exact h rfl

lemma seg_len_pos {p q : Point} (h : p ≠ q) : 0 < seg_len p q := by
  apply Real.sqrt_pos.mpr
  rcases Point.ne_iff.mp h with hx | hy
  · have hx0 : q.x - p.x ≠ 0 := sub_ne_zero.mpr (Ne.symm hx)
    have hx2 : 0 < (q.x - p.x) ^ 2 :=
      lt_of_le_of_ne (sq_nonneg _) (Ne.symm (pow_ne_zero 2 hx0))
    nlinarith [sq_nonneg (q.y - p.y)]
  · have hy0 : q.y - p.y ≠ 0 := sub_ne_zero.mpr (Ne.symm hy)
    have hy2 : 0 < (q.y - p.y) ^ 2 :=
      lt_of_le_of_ne (sq_nonneg _) (Ne.symm (pow_ne_zero 2 hy0))
    nlinarith [sq_nonneg (q.x - p.x)]

lemma seg_len_mul_self (p q : Point) :
    seg_len p q * seg_len p q = (q.x - p.x) ^ 2 + (q.y - p.y) ^ 2 :=
  Real.mul_self_sqrt (by positivity)

set_option maxHeartbeats 1000000 in
lemma acos_arg_lt_one {a b c : Point} (hab : a ≠ b) (hbc : b ≠ c)
    (hcol : ¬ Collinear3 a b c) : -1 < acos_arg a b c ∧ acos_arg a b c < 1 := by
  unfold acos_arg
  have hA2 := seg_len_mul_self a b
  have hB2 := seg_len_mul_self c b
  have hC2 := seg_len_mul_self a c
  set A : ℝ := seg_len a b with hadef
  set B : ℝ := seg_len c b with hbdef
  set C : ℝ := seg_len a c with hcdef
  have hA : 0 < A := seg_len_pos hab
  have hB : 0 < B := seg_len_pos (fun h => hbc h.symm)
  have hden : 0 < 2 * B * A := by positivity
  set I : ℝ := (b.x - a.x) * (b.x - c.x) + (b.y - a.y) * (b.y - c.y) with hI
  set X : ℝ := (b.x - a.x) * (b.y - c.y) - (b.y - a.y) * (b.x - c.x) with hX
  have hXne : X ≠ 0 := by
    intro h
    apply hcol
    unfold Collinear3
    linear_combination -h
  have hnum : B * B + A * A - C * C = 2 * I := by
    rw [hA2, hB2, hC2]; ring
  have hlagrange : I ^ 2 + X ^ 2 = (A * A) * (B * B) := by
    rw [hA2, hB2]; ring
  have hX2 : 0 < X ^ 2 :=
    lt_of_le_of_ne (sq_nonneg _) (Ne.symm (pow_ne_zero 2 hXne))
  have hprod : 0 < B * A := mul_pos hB hA
  have hI2 : I ^ 2 < (B * A) ^ 2 := by nlinarith [hlagrange, hX2]
  have hIlt : I < B * A := by nlinarith [hI2, hprod]
  have hIgt : -(B * A) < I := by nlinarith [hI2, hprod]
  constructor
  · rw [lt_div_iff hden, hnum]
    linarith [hIgt]
  · rw [div_lt_one hden, hnum]
    linarith [hIlt]

/-- Claim C2: for non-degenerate, non-collinear inputs `find_angle` returns a
finite angle in `[0, 360)`: the law-of-cosines angle in degrees when
`a.x < c.x`, and that angle mirrored across `180°` (`360` minus it)
otherwise; in particular the result is always strictly below `360`. -/
theorem find_angle_range_and_mirror (a b c : Point)
    (hab : a ≠ b) (hbc : b ≠ c) (hcol : ¬ Collinear3 a b c) :
    ∃ θ : ℝ, find_angle a b c = some θ ∧ 0 ≤ θ ∧ θ < 360 ∧
      θ = if a.x < c.x then law_of_cosines_deg a b c
          else 360 - law_of_cosines_deg a b c := by
  have hA : 0 < seg_len a b := seg_len_pos hab
  have hB : 0 < seg_len c b := seg_len_pos (fun h => hbc h.symm)
  have hden : (0 : ℝ) < 2 * seg_len c b * seg_len a b := by positivity
  obtain ⟨hgt, hlt⟩ := acos_arg_lt_one hab hbc hcol
  have harccos_pos : 0 < Real.arccos (acos_arg a b c) := Real.arccos_pos.mpr hlt
  have harccos_lt : Real.arccos (acos_arg a b c) < Real.pi := by
    refine lt_of_le_of_ne (Real.arccos_le_pi _) fun h => ?_
    exact absurd (Real.arccos_eq_pi.mp h) (not_le.mpr hgt)
  have hdeg_pos : 0 < law_of_cosines_deg a b c := by
    unfold law_of_cosines_deg
    exact div_pos (by positivity) Real.pi_pos
  have hdeg_lt : law_of_cosines_deg a b c < 180 := by
    unfold law_of_cosines_deg
    rw [div_lt_iff Real.pi_pos]
    nlinarith [Real.pi_pos]
  refine ⟨if a.x < c.x then law_of_cosines_deg a b c
          else 360 - law_of_cosines_deg a b c, ?_, ?_, ?_, rfl⟩
  · unfold find_angle
    rw [if_neg (ne_of_gt hden), if_neg (by push_neg; exact ⟨le_of_lt hgt, le_of_lt hlt⟩)]
    by_cases hx : a.x < c.x
    · rw [if_pos hx, if_pos hx]
    · rw [if_neg hx, if_neg hx]
      congr 1
      ring
  · by_cases hx : a.x < c.x
    · rw [if_pos hx]; linarith
    · rw [if_neg hx]; linarith
  · by_cases hx : a.x < c.x
    · rw [if_pos hx]; linarith
    · rw [if_neg hx]; linarith

theorem find_angle_range_and_mirror_witness :
    ((⟨0, 0⟩ : Point) ≠ ⟨0, 1⟩ ∧ (⟨0, 1⟩ : Point) ≠ ⟨1, 1⟩ ∧
      ¬ Collinear3 ⟨0, 0⟩ ⟨0, 1⟩ ⟨1, 1⟩) ∧
    (∃ θ : ℝ, find_angle ⟨0, 0⟩ ⟨0, 1⟩ ⟨1, 1⟩ = some θ ∧ 0 ≤ θ ∧ θ < 360 ∧
      θ = if (⟨0, 0⟩ : Point).x < (⟨1, 1⟩ : Point).x
          then law_of_cosines_deg ⟨0, 0⟩ ⟨0, 1⟩ ⟨1, 1⟩
          else 360 - law_of_cosines_deg ⟨0, 0⟩ ⟨0, 1⟩ ⟨1, 1⟩) :=
  ⟨⟨by simp, by simp, by norm_num [Collinear3]⟩,
    find_angle_range_and_mirror ⟨0, 0⟩ ⟨0, 1⟩ ⟨1, 1⟩ (by simp) (by simp)
      (by norm_num [Collinear3])⟩

/-- Claim C8: when `a = b` or `b = c` (a zero-length triangle side), the
`acos` divisor `2*bc*ab` is zero and `find_angle` produces `NaN`
(modelled as `none`) rather than a finite angle. -/
theorem find_angle_degenerate_nan (a b c : Point) (h : a = b ∨ b = c) :
    find_angle a b c = none := by
  unfold find_angle
  rw [if_pos]
  rcases h with h | h
  · subst h
    have : seg_len a a = 0 := by
      unfold seg_len
      simp
    rw [this, mul_zero]
  · subst h
    have : seg_len b b = 0 := by
      unfold seg_len
      simp
    rw [this, mul_zero, zero_mul]

theorem find_angle_degenerate_nan_witness :
    ((⟨0, 0⟩ : Point) = ⟨0, 0⟩ ∨ (⟨0, 0⟩ : Point) = ⟨1, 0⟩) ∧
    find_angle ⟨0, 0⟩ ⟨0, 0⟩ ⟨1, 0⟩ = none :=
  ⟨Or.inl rfl, find_angle_degenerate_nan ⟨0, 0⟩ ⟨0, 0⟩ ⟨1, 0⟩ (Or.inl rfl)⟩

/-- A fully populated slider configuration (numeric fields over `ℚ`, colors
and name as strings), the shape of `default_data` in `slider.js`. -/
structure Config where
  name : String
  size : ℚ
  width : ℚ
  dash : ℚ
  gap : ℚ
  rotate : ℚ
  min_value : ℚ
  max_value : ℚ
  step : ℚ
  gap_color : String
  color : String
  bg_gap_color : String
  bg_color : String
deriving DecidableEq, Repr

/-- A user-supplied configuration entry: any field may be absent
(`item.hasOwnProperty(k)` false). -/
structure PartialConfig where
  name : Option String
  size : Option ℚ
  width : Option ℚ
  dash : Option ℚ
  gap : Option ℚ
  rotate : Option ℚ
  min_value : Option ℚ
  max_value : Option ℚ
  step : Option ℚ
  gap_color : Option String
  color : Option String
  bg_gap_color : Option String
  bg_color : Option String
deriving DecidableEq, Repr

/-- `default_data` from `slider.js`. -/
def default_data : Config :=
  ⟨"Whatever", 100, 10, 6, 2, 0, 100, 200, 0, "#977fa1", "#5f3b6f", "#d7d7d7", "#c8c8c8"⟩

/-- The per-entry defaulting loop of the `slider` constructor: every key of
`default_data` that the item does not carry is copied from `default_data`. -/
def merge_defaults (item : PartialConfig) : Config :=
  ⟨item.name.getD default_data.name,
   item.size.getD default_data.size,
   item.width.getD default_data.width,
   item.dash.getD default_data.dash,
   item.gap.getD default_data.gap,
   item.rotate.getD default_data.rotate,
   item.min_value.getD default_data.min_value,
   item.max_value.getD default_data.max_value,
   item.step.getD default_data.step,
   item.gap_color.getD default_data.gap_color,
   item.color.getD default_data.color,
   item.bg_gap_color.getD default_data.bg_gap_color,
   item.bg_color.getD default_data.bg_color⟩

/-- `data.map(...)` in the `slider` constructor: defaulting applied to every
entry of the configuration list. -/
def normalize_configs (data : List PartialConfig) : List Config :=
  data.map merge_defaults

/-- The configuration entry `{name: "X"}`: only the name is present. -/
def only_name_X : PartialConfig :=
  ⟨some "X", none, none, none, none, none, none, none, none, none, none, none, none⟩

/-- Claim C7: each config entry of the list is normalized by filling every
omitted field with its documented default — size `100`, width `10`, dash `6`,
gap `2`, `min_value 100`, `max_value 200`, step `0` and the four fixed hex
colors — and the entry `{name: "X"}` carries exactly the documented defaults
for every other field. -/
theorem config_defaults_filled (data : List PartialConfig) (item : PartialConfig)
    (hmem : item ∈ data) :
    merge_defaults item ∈ normalize_configs data ∧
    (item.size = none → (merge_defaults item).size = 100) ∧
    (item.width = none → (merge_defaults item).width = 10) ∧
    (item.dash = none → (merge_defaults item).dash = 6) ∧
    (item.gap = none → (merge_defaults item).gap = 2) ∧
    (item.min_value = none → (merge_defaults item).min_value = 100) ∧
    (item.max_value = none → (merge_defaults item).max_value = 200) ∧
    (item.step = none → (merge_defaults item).step = 0) ∧
    (item.gap_color = none → (merge_defaults item).gap_color = "#977fa1") ∧
    (item.color = none → (merge_defaults item).color = "#5f3b6f") ∧
    (item.bg_gap_color = none → (merge_defaults item).bg_gap_color = "#d7d7d7") ∧
    (item.bg_color = none → (merge_defaults item).bg_color = "#c8c8c8") ∧
    merge_defaults only_name_X =
      ⟨"X", 100, 10, 6, 2, 0, 100, 200, 0, "#977fa1", "#5f3b6f", "#d7d7d7", "#c8c8c8"⟩ := by
  refine ⟨List.mem_map_of_mem merge_defaults hmem, ?_, ?_, ?_, ?_, ?_, ?_, ?_, ?_, ?_, ?_, ?_, rfl⟩
  all_goals intro h; simp [merge_defaults, h, default_data]

theorem config_defaults_filled_witness :
    only_name_X ∈ [only_name_X] ∧
    (merge_defaults only_name_X ∈ normalize_configs [only_name_X] ∧
      (only_name_X.size = none → (merge_defaults only_name_X).size = 100) ∧
      (only_name_X.width = none → (merge_defaults only_name_X).width = 10) ∧
      (only_name_X.dash = none → (merge_defaults only_name_X).dash = 6) ∧
      (only_name_X.gap = none → (merge_defaults only_name_X).gap = 2) ∧
      (only_name_X.min_value = none → (merge_defaults only_name_X).min_value = 100) ∧
      (only_name_X.max_value = none → (merge_defaults only_name_X).max_value = 200) ∧
      (only_name_X.step = none → (merge_defaults only_name_X).step = 0) ∧
      (only_name_X.gap_color = none → (merge_defaults only_name_X).gap_color = "#977fa1") ∧
      (only_name_X.color = none → (merge_defaults only_name_X).color = "#5f3b6f") ∧
      (only_name_X.bg_gap_color = none → (merge_defaults only_name_X).bg_gap_color = "#d7d7d7") ∧
      (only_name_X.bg_color = none → (merge_defaults only_name_X).bg_color = "#c8c8c8") ∧
      merge_defaults only_name_X =
        ⟨"X", 100, 10, 6, 2, 0, 100, 200, 0, "#977fa1", "#5f3b6f", "#d7d7d7", "#c8c8c8"⟩) :=
  ⟨List.mem_singleton.mpr rfl,
    config_defaults_filled [only_name_X] only_name_X (List.mem_singleton.mpr rfl)⟩

/-- JavaScript strings are modelled as lists of Unicode code points; `32` is
the space, `45` the hyphen, `95` the underscore. -/
abbrev JsString := List Nat

/-- `String.prototype.toLowerCase` on one code point (ASCII range, the only
range exercised by the widget): uppercase letters `A`–`Z` shift by 32. -/
def js_to_lower_code (n : Nat) : Nat :=
  if 65 ≤ n ∧ n ≤ 90 then n + 32 else n

/-- `s.replace(" ", "_")` with a string pattern: JavaScript replaces only the
FIRST occurrence of the space. -/
def replace_first_space : JsString → JsString
  | [] => []
  | c :: cs => if c = 32 then 95 :: cs else c :: replace_first_space cs

/-- The derived config class of the `slider` constructor (line 229):
`item.name.toLowerCase().replace(" ", "_")`. -/
def name_to_class (name : JsString) : JsString :=
  replace_first_space (name.map js_to_lower_code)

/-- The lookup key built by `update_dom_data` (line 341):
`[id, dd.class, k].join("-")`. -/
def label_class_name (id cls k : JsString) : JsString :=
  id ++ [45] ++ cls ++ [45] ++ k

/-- Splitting a class attribute into its space-separated tokens, as the DOM
does before matching `getElementsByClassName` queries. -/
def class_tokens (acc : JsString) : JsString → List JsString
  | [] => [acc.reverse]
  | c :: cs => if c = 32 then acc.reverse :: class_tokens [] cs else class_tokens (c :: acc) cs

/-- An element (represented by its class attribute) "has class `cls`": `cls`
equals one of the attribute's space-separated tokens.  This is the per-class
membership test `getElementsByClassName` applies. -/
def has_class (className cls : JsString) : Bool :=
  decide (cls ∈ class_tokens [] className)

/-- `document.getElementsByClassName(query)`: the query itself is split on
whitespace into a set of required class names, and an element (represented
by its class attribute) matches when it carries ALL of them; a query with no
nonempty token matches nothing. -/
def getElementsByClassName (doc : List JsString) (query : JsString) : List JsString :=
  let qtokens := (class_tokens [] query).filter (fun t => !t.isEmpty)
  if qtokens.isEmpty then []
  else doc.filter (fun className => qtokens.all (fun t => has_class className t))

lemma js_to_lower_code_eq_space {n : Nat} : js_to_lower_code n = 32 ↔ n = 32 := by
  unfold js_to_lower_code
  by_cases h : 65 ≤ n ∧ n ≤ 90
  · rw [if_pos h]
    omega
  · rw [if_neg h]

lemma count_space_map_to_lower (s : JsString) :
    (s.map js_to_lower_code).count 32 = s.count 32 := by
  induction s with
  | nil => rfl
  | cons c cs ih =>
    simp only [List.map_cons, List.count_cons, ih]
    by_cases h : c = 32
    · rw [if_pos (by simp [h, js_to_lower_code]), if_pos (by simp [h])]
    · rw [if_neg (by simp [js_to_lower_code_eq_space, h]), if_neg (by simp [h])]

lemma count_space_replace_first {s : JsString} (h : 32 ∈ s) :
    (replace_first_space s).count 32 = s.count 32 - 1 := by
  induction s with
  | nil => cases h
  | cons c cs ih =>
    by_cases hc : c = 32
    · subst hc
      unfold replace_first_space
      rw [if_pos rfl, List.count_cons_of_ne (by norm_num : (32 : Nat) ≠ 95),
        List.count_cons_self]
      omega
    · have hm : 32 ∈ cs := by
        rcases List.mem_cons.mp h with hx | hx
        · exact absurd hx.symm hc
        · exact hx
      unfold replace_first_space
      rw [if_neg hc, List.count_cons_of_ne (fun hx => hc hx.symm),
        List.count_cons_of_ne (fun hx => hc hx.symm), ih hm]

lemma mem_class_tokens_no_space (acc : JsString) (s : JsString) (t : JsString)
    (hacc : 32 ∉ acc) (ht : t ∈ class_tokens acc s) : 32 ∉ t := by
  induction s generalizing acc with
  | nil =>
    unfold class_tokens at ht
    rcases List.mem_singleton.mp ht with h
    subst h
    simpa using hacc
  | cons c cs ih =>
    unfold class_tokens at ht
    by_cases hc : c = 32
    · rw [if_pos hc] at ht
      rcases List.mem_cons.mp ht with h | h
      · subst h
        simpa using hacc
      · exact ih [] (by simp) h
    · rw [if_neg hc] at ht
      refine ih (c :: acc) (fun hx => ?_) ht
      rcases List.mem_cons.mp hx with hx | hx
      · exact hc hx.symm
      · exact hacc hx

lemma has_class_space_false (className cls : JsString) (h : 32 ∈ cls) :
    has_class className cls = false := by
  unfold has_class
  rw [decide_eq_false_iff_not]
  intro hmem
  exact mem_class_tokens_no_space [] className cls (by simp) hmem h

/-- Claim C10, counterexample: the "can never match a DOM element" part is
false under real `getElementsByClassName` semantics.  For the name `"A B C"`
(two spaces) the class is `"a_b c"` and the lookup key is `"id-a_b c-n"`
(with container id `"id"` and field `"n"`); the browser splits that key into
the required class names `"id-a_b"` and `"c-n"`, so a document element whose
class attribute is the very same string — it carries both tokens — IS
returned by the lookup. -/
theorem space_class_lookup_can_match :
    2 ≤ ([65, 32, 66, 32, 67] : JsString).count 32 ∧
    getElementsByClassName
        [label_class_name [105, 100] (name_to_class [65, 32, 66, 32, 67]) [110]]
        (label_class_name [105, 100] (name_to_class [65, 32, 66, 32, 67]) [110]) =
      [label_class_name [105, 100] (name_to_class [65, 32, 66, 32, 67]) [110]] := by
  decide

/-- Claim C10, amended: the derived config class lowercases the name and
replaces only the FIRST space by an underscore (the space count drops by
exactly one), so a name with two or more spaces yields a class that still
contains a space, and the label-panel lookup key
`{containerId}-{sliderClass}-{field}` contains a space as well; such a key
can never be carried by any DOM element as a class of its own — no
space-separated class token ever contains a space — so the lookup never
matches an element via the intended single class name; it can only return
elements that happen to carry every whitespace-split fragment of the key. -/
theorem label_key_never_a_class_token (name id field : JsString)
    (doc : List JsString) (h2 : 2 ≤ name.count 32) :
    (name_to_class name).count 32 = name.count 32 - 1 ∧
    32 ∈ label_class_name id (name_to_class name) field ∧
    ∀ el ∈ doc, has_class el (label_class_name id (name_to_class name) field) = false := by
  have hmem : 32 ∈ name.map js_to_lower_code := by
    have : 1 ≤ (name.map js_to_lower_code).count 32 := by
      rw [count_space_map_to_lower]; omega
    exact List.one_le_count_iff.mp this
  have hcount : (name_to_class name).count 32 = name.count 32 - 1 := by
    unfold name_to_class
    rw [count_space_replace_first hmem, count_space_map_to_lower]
  have hsp32 : 32 ∈ label_class_name id (name_to_class name) field := by
    have h1 : 1 ≤ (name_to_class name).count 32 := by omega
    have hsp : 32 ∈ name_to_class name := List.one_le_count_iff.mp h1
    unfold label_class_name
    simp [hsp]
  exact ⟨hcount, hsp32, fun el _ => has_class_space_false el _ hsp32⟩

theorem label_key_never_a_class_token_witness :
    2 ≤ ([65, 32, 66, 32, 67] : JsString).count 32 ∧
    ((name_to_class [65, 32, 66, 32, 67]).count 32 =
        ([65, 32, 66, 32, 67] : JsString).count 32 - 1 ∧
      32 ∈ label_class_name [105, 100] (name_to_class [65, 32, 66, 32, 67]) [110] ∧
      ∀ el ∈ ([[97, 98], [99]] : List JsString),
        has_class el
          (label_class_name [105, 100] (name_to_class [65, 32, 66, 32, 67]) [110]) = false) :=
  ⟨by decide,
    label_key_never_a_class_token [65, 32, 66, 32, 67] [105, 100] [110]
      [[97, 98], [99]] (by decide)⟩

/-- The pointer/touch event types the widget listens to. -/
inductive EvType where
  | mousedown
  | touchstart
  | touchmove
  | mousemove
  | mouseup
  | touchend
deriving DecidableEq, Repr

/-- The guard inside `move_handle`'s `forEach`
(`['mousedown', 'touchmove'].indexOf(e.type) == -1`): an event type that
triggers a jump-to-location update even when the slider is not rotating. -/
def is_jump_type : EvType → Bool
  | EvType.mousedown => true
  | EvType.touchmove => true
  | _ => false

/-- The interaction state of one widget instance: each collection slider's
`rotating` flag (indexed by position) together with the module-level
`sliders` variable — the list of slider indices `move_handle` and the
document `mouseup`/`touchend` listener currently iterate, which
`move_handle` REASSIGNS via `sliders = sl ? [sl] : sliders`. -/
structure WidgetState where
  rotating : List Bool
  active : List Nat
deriving DecidableEq, Repr

/-- Which sliders the body of `move_handle`'s `forEach` actually updates: the
iterated ones that are rotating, unless the event type is a jump trigger in
which case all iterated ones are updated. -/
def move_handle_updates (t : EvType) (rotating : List Bool) (idxs : List Nat) : List Nat :=
  idxs.filter (fun i => rotating.getD i false || is_jump_type t)

/-- One listener invocation:
`handleDown i` is the handle's own `mousedown` listener (sets `rotating`),
`sliderEvent t i` is the per-slider `mousedown`/`touchstart`/`touchmove`
listener calling `move_handle(e, sl)`, `docMove` is the document `mousemove`
listener calling `move_handle(e)` with no target, and `docUp` is the
document `mouseup`/`touchend` listener. -/
inductive Ev where
  | handleDown (i : Nat)
  | sliderEvent (t : EvType) (i : Nat)
  | docMove
  | docUp
deriving DecidableEq, Repr

/-- The effect of one listener invocation on the widget state, paired with
the list of sliders `move_handle` updates during it.  `sliderEvent` performs
`sliders = [sl]` (the reassignment in `move_handle`), `docMove` iterates the
current module-level list, and `docUp` clears `rotating` for exactly the
sliders in that list. -/
def dispatch_event : Ev → WidgetState → WidgetState × List Nat
  | Ev.handleDown i, s => (⟨s.rotating.set i true, s.active⟩, [])
  | Ev.sliderEvent t i, s => (⟨s.rotating, [i]⟩, move_handle_updates t s.rotating [i])
  | Ev.docMove, s => (s, move_handle_updates EvType.mousemove s.rotating s.active)
  | Ev.docUp, s => (⟨s.active.foldl (fun rot i => rot.set i false) s.rotating, s.active⟩, [])

/-- Running a sequence of listener invocations. -/
def run_events (es : List Ev) (s : WidgetState) : WidgetState :=
  es.foldl (fun s e => (dispatch_event e s).1) s

/-- The state right after construction: no slider rotating, the module-level
list holding the whole collection. -/
def initState (n : Nat) : WidgetState :=
  ⟨List.replicate n false, List.range n⟩

/-- Claim C1 fails on the code: in a two-slider collection, press slider 1's
handle (its `mousedown` bubbles to the slider group, so `move_handle`
reassigns the module-level list to `[1]`), then `mousedown` on slider 0's
body (the list becomes `[0]`).  A document `mousemove` now fans out to no
slider at all — slider 1 is Rotating but is no longer in the iterated list —
and a document `mouseup` clears Rotating only for slider 0, leaving slider 1
Rotating.  Without the body-targeted event the same `mouseup` does clear
every slider, confirming the clobbering assignment as the cause. -/
theorem doc_events_miss_sliders_after_body_event :
    (dispatch_event Ev.docMove
      (run_events [Ev.handleDown 1, Ev.sliderEvent EvType.mousedown 1,
        Ev.sliderEvent EvType.mousedown 0] (initState 2))).2 = [] ∧
    (run_events [Ev.handleDown 1, Ev.sliderEvent EvType.mousedown 1,
      Ev.sliderEvent EvType.mousedown 0, Ev.docUp] (initState 2)).rotating = [false, true] ∧
    (run_events [Ev.handleDown 1, Ev.docUp] (initState 2)).rotating = [false, false] := by
  decide
